import Mathlib

/-!
Verification of the SnapScroll horizontal scroll-snapping widget.

The JavaScript class `SnapScroll` is shallowly embedded here.  Numbers are
modelled as rationals (`ℚ`); `Math.round` is Mathlib's `round` (both round
half toward positive infinity).  The mutable instance fields of the class
(`options`, the drag bookkeeping fields, `currentBreakpoint`) together with
the two DOM quantities the methods read (`container.offsetWidth`,
`container.scrollLeft`) form the `State` structure; each method becomes a
function on `State`.  A JS partial override object `{itemsToShow?,
itemsToScroll?}` becomes a record of `Option ℚ` fields, and the two ways the
source reads an override field (`x || base`, a truthiness test, versus
`x !== undefined ? x : base`) become `truthyOr` and `definedOr`.
-/

namespace SnapScroll

/-- One responsive breakpoint override, as in the object literals stored under
`options.responsive` in the source: either field may be absent. -/
structure BPOverride where
  itemsToShow : Option ℚ := none
  itemsToScroll : Option ℚ := none
deriving DecidableEq

/-- The option fields of the widget that the layout arithmetic reads
(`snapDuration`, `navigation` and `dots` play no role in the claims).
`responsive` is the breakpoint map, kept as an association list of
(numeric key, override) pairs. -/
structure Options where
  itemsToShow : ℚ := 1
  itemsToScroll : ℚ := 1
  gap : ℚ := 20
  responsive : Option (List (ℚ × BPOverride)) := none
deriving DecidableEq

/-- The widget state: the instance fields of the `SnapScroll` class that the
claims touch plus the two container quantities the methods read.
`scrollLeft` is the instance field `this.scrollLeft` (the drag anchor);
`containerScrollLeft` models `this.container.scrollLeft`. -/
structure State where
  options : Options
  containerWidth : ℚ
  containerScrollLeft : ℚ := 0
  currentBreakpoint : Option (ℚ × ℚ) := none
  isDragging : Bool := false
  startX : ℚ := 0
  scrollLeft : ℚ := 0
deriving DecidableEq

/-- JS `v || base` on an optional numeric field: `undefined` and `0` are both
falsy, so they fall back to `base`. -/
def truthyOr (v : Option ℚ) (base : ℚ) : ℚ :=
  match v with
  | some x => if x = 0 then base else x
  | none => base

/-- JS `v !== undefined ? v : base` on an optional numeric field: only an
absent field falls back to `base`; an explicit `0` is kept. -/
def definedOr (v : Option ℚ) (base : ℚ) : ℚ :=
  match v with
  | some x => x
  | none => base

/-- The keys of the responsive map, in association-list order
(`Object.keys(...).map(Number)` in the source). -/
def bpKeys (resp : List (ℚ × BPOverride)) : List ℚ :=
  resp.map Prod.fst

/-- `sort((a, b) => b - a)`: the breakpoint keys in descending order. -/
def sortDesc (l : List ℚ) : List ℚ :=
  List.insertionSort (fun a b => a ≥ b) l

/-- `sort((a, b) => a - b)`: the breakpoint keys in ascending order. -/
def sortAsc (l : List ℚ) : List ℚ :=
  List.insertionSort (fun a b => a ≤ b) l

/-- The loop of `getItemsToShow`: walk the descending key list and return the
first key `b` with `containerWidth >= b` (the loop `break`s there). -/
def findFirstDesc : List ℚ → ℚ → Option ℚ
  | [], _ => none
  | b :: rest, w => if b ≤ w then some b else findFirstDesc rest w

/-- The loop of `getItemsToScroll`: walk the ascending key list, remember the
last key `b` with `containerWidth >= b`, and `break` at the first key above
the width. -/
def findLastAsc : List ℚ → ℚ → Option ℚ
  | [], _ => none
  | b :: rest, w =>
    if b ≤ w then
      match findLastAsc rest w with
      | some m => some m
      | none => some b
    else none

/-- `this.options.responsive[breakpoint]`: association-list lookup of the
override stored under a key. -/
def lookupBp : List (ℚ × BPOverride) → ℚ → Option BPOverride
  | [], _ => none
  | (k, o) :: rest, b => if k = b then some o else lookupBp rest b

/-- `getItemsToShow()`: with no responsive map return the base option;
otherwise sort the keys descending, take the first key at or below the
container width, and read its override with `config.itemsToShow || itemsToShow`
(a truthiness test).  No match, or a missing override entry, leaves the base
value. -/
def getItemsToShow (s : State) : ℚ :=
  match s.options.responsive with
  | none => s.options.itemsToShow
  | some resp =>
    match findFirstDesc (sortDesc (bpKeys resp)) s.containerWidth with
    | none => s.options.itemsToShow
    | some b =>
      match lookupBp resp b with
      | some config => truthyOr config.itemsToShow s.options.itemsToShow
      | none => s.options.itemsToShow

/-- `getItemsToScroll()` (the live, uncommented version): sort the keys
ascending, keep the last key at or below the container width, and read its
override with `config.itemsToScroll !== undefined` (an explicit presence
test). -/
def getItemsToScroll (s : State) : ℚ :=
  match s.options.responsive with
  | none => s.options.itemsToScroll
  | some resp =>
    match findLastAsc (sortAsc (bpKeys resp)) s.containerWidth with
    | none => s.options.itemsToScroll
    | some b =>
      match lookupBp resp b with
      | some config => definedOr config.itemsToScroll s.options.itemsToScroll
      | none => s.options.itemsToScroll

/-- `getItemWidth()`: `container.offsetWidth / this.getItemsToShow() - gap`. -/
def getItemWidth (s : State) : ℚ :=
  s.containerWidth / getItemsToShow s - s.options.gap

/-- The index computed inside `snapToNearest()`:
`Math.round(scrollPos / (itemWidth + gap))`. -/
def snapTargetIndex (s : State) : ℤ :=
  round (s.containerScrollLeft / (getItemWidth s + s.options.gap))

/-- The `left` argument `scrollTo(index)` passes to `container.scrollTo`:
`(getItemWidth() + gap) * getItemsToShow() * index`. -/
def scrollToTarget (s : State) (index : ℤ) : ℚ :=
  (getItemWidth s + s.options.gap) * getItemsToShow s * (index : ℚ)

/-- `scrollTo(index)` as a state transformer: it requests an absolute scroll
to `scrollToTarget`. -/
def scrollTo (s : State) (index : ℤ) : State :=
  { s with containerScrollLeft := scrollToTarget s index }

/-- `snapToNearest()`: compute the rounded index of the current offset and
`scrollTo` it. -/
def snapToNearest (s : State) : State :=
  scrollTo s (snapTargetIndex s)

/-- `endDrag()`: clear the dragging flag, then snap to the nearest index. -/
def endDrag (s : State) : State :=
  snapToNearest { s with isDragging := false }

/-- `startDrag(e)`: unconditionally mark dragging and record the pointer
position and the current container offset. -/
def startDrag (s : State) (pageX : ℚ) : State :=
  { s with isDragging := true, startX := pageX, scrollLeft := s.containerScrollLeft }

/-- The `left` argument `next()` passes to `container.scrollBy`:
`(getItemWidth() + gap) * getItemsToScroll()`. -/
def nextRequest (s : State) : ℚ :=
  (getItemWidth s + s.options.gap) * getItemsToScroll s

/-- The `left` argument `prev()` passes to `container.scrollBy`: the negated
scroll amount. -/
def prevRequest (s : State) : ℚ :=
  -((getItemWidth s + s.options.gap) * getItemsToScroll s)

/-- `handleResize()`: read the previous effective values from
`currentBreakpoint?.x || options.x`, recompute the current ones, and if they
changed, store the new breakpoint, then recompute the scroll position with
`itemWidth` measured AFTER the update (so with the new items-to-show) and
`prevItemsToShow` from before it. -/
def handleResize (s : State) : State :=
  let prevItemsToShow :=
    match s.currentBreakpoint with
    | some bp => if bp.1 = 0 then s.options.itemsToShow else bp.1
    | none => s.options.itemsToShow
  let prevItemsToScroll :=
    match s.currentBreakpoint with
    | some bp => if bp.2 = 0 then s.options.itemsToScroll else bp.2
    | none => s.options.itemsToScroll
  let currentItemsToShow := getItemsToShow s
  let currentItemsToScroll := getItemsToScroll s
  if currentItemsToShow ≠ prevItemsToShow ∨ currentItemsToScroll ≠ prevItemsToScroll then
    let s1 : State := { s with currentBreakpoint := some (currentItemsToShow, currentItemsToScroll) }
    let itemWidth := getItemWidth s1 + s1.options.gap
    let currentIndex : ℤ := round (s1.containerScrollLeft / (itemWidth * prevItemsToShow))
    let newScrollPos : ℚ := (currentIndex : ℚ) * (itemWidth * currentItemsToShow)
    { s1 with containerScrollLeft := newScrollPos }
  else s

/-- The error kind named by the specification for invalid configurations. -/
inductive ConfigError where
  | InvalidConfiguration
deriving DecidableEq

/-- Specification contract 4.2, stated from the spec text for comparison with
the code: `itemWidth(containerWidth, itemsToShow, gap)` computes
`(containerWidth / itemsToShow) - gap` but fails with `InvalidConfiguration`
when `itemsToShow < 1` or `containerWidth <= 0`. -/
def specItemWidthChecked (containerWidth itemsToShow gap : ℚ) : Except ConfigError ℚ :=
  if itemsToShow < 1 ∨ containerWidth ≤ 0 then Except.error ConfigError.InvalidConfiguration
  else Except.ok (containerWidth / itemsToShow - gap)

/-- Specification contract 4.2, stated from the spec text for comparison with
the code: `offsetForPage(pageIndex, itemWidth, gap, itemsToShow) =
pageIndex * itemsToShow * (itemWidth + gap)`. -/
def specOffsetForPage (pageIndex : ℤ) (itemWidth gap itemsToShow : ℚ) : ℚ :=
  (pageIndex : ℚ) * itemsToShow * (itemWidth + gap)

/-- Specification contract 4.2, stated from the spec text for comparison with
the code: `pageForOffset(scrollOffset, itemWidth, gap, itemsToScroll) =
round(scrollOffset / ((itemWidth + gap) * itemsToScroll))`. -/
def specPageForOffset (scrollOffset itemWidth gap itemsToScroll : ℚ) : ℤ :=
  round (scrollOffset / ((itemWidth + gap) * itemsToScroll))

/-- Specification contract 4.3, stated from the spec text for comparison with
the code: `reconcile` recovers the page index at the OLD stride and re-issues
it at the NEW stride. -/
def specReconcile (oldOffset oldItemWidth oldGap oldItemsToShow newItemWidth newGap newItemsToShow : ℚ) : ℚ :=
  (round (oldOffset / ((oldItemWidth + oldGap) * oldItemsToShow)) : ℚ)
    * ((newItemWidth + newGap) * newItemsToShow)

/-! ### Characterization of the two breakpoint-selection loops -/

theorem findFirstDesc_eq_none {l : List ℚ} {w : ℚ} :
    findFirstDesc l w = none ↔ ∀ k ∈ l, w < k := by
  induction l with
  | nil => simp [findFirstDesc]
  | cons b rest ih =>
    simp only [findFirstDesc]
    by_cases hb : b ≤ w
    · rw [if_pos hb]
      constructor
      · intro h; cases h
      · intro hall
        exact absurd (hall b (List.mem_cons_self b rest)) (not_lt.mpr hb)
    · rw [if_neg hb, ih]
      constructor
      · intro h k hk
        rcases List.mem_cons.mp hk with rfl | hk2
        · exact not_le.mp hb
        · exact h k hk2
      · intro h k hk
        exact h k (List.mem_cons_of_mem b hk)

theorem findFirstDesc_max {l : List ℚ} {w m : ℚ}
    (hs : l.Sorted (fun a b => a ≥ b)) (h : findFirstDesc l w = some m) :
    m ∈ l ∧ m ≤ w ∧ ∀ k ∈ l, k ≤ w → k ≤ m := by
  induction l with
  | nil => simp [findFirstDesc] at h
  | cons b rest ih =>
    rw [List.sorted_cons] at hs
    obtain ⟨hge, hrest⟩ := hs
    simp only [findFirstDesc] at h
    by_cases hb : b ≤ w
    · rw [if_pos hb] at h
      obtain rfl : b = m := by injection h
      refine ⟨List.mem_cons_self b rest, hb, ?_⟩
      intro k hk _
      rcases List.mem_cons.mp hk with rfl | hk2
      · exact le_refl k
      · exact hge k hk2
    · rw [if_neg hb] at h
      obtain ⟨hmem, hle, hmax⟩ := ih hrest h
      refine ⟨List.mem_cons_of_mem b hmem, hle, ?_⟩
      intro k hk hkw
      rcases List.mem_cons.mp hk with rfl | hk2
      · exact absurd hkw hb
      · exact hmax k hk2 hkw

theorem findLastAsc_eq_none {l : List ℚ} {w : ℚ}
    (hs : l.Sorted (fun a b => a ≤ b)) :
    findLastAsc l w = none ↔ ∀ k ∈ l, w < k := by
  induction l with
  | nil => simp [findLastAsc]
  | cons b rest ih =>
    rw [List.sorted_cons] at hs
    obtain ⟨hle, hrest⟩ := hs
    simp only [findLastAsc]
    by_cases hb : b ≤ w
    · rw [if_pos hb]
      have : (match findLastAsc rest w with
          | some m => some m
          | none => some b) ≠ none := by
        cases findLastAsc rest w <;> simp
      constructor
      · intro h; exact absurd h this
      · intro h
        exact absurd (h b (List.mem_cons_self b rest)) (not_lt.mpr hb)
    · rw [if_neg hb]
      constructor
      · intro _ k hk
        rcases List.mem_cons.mp hk with rfl | hk2
        · exact not_le.mp hb
        · exact lt_of_lt_of_le (not_le.mp hb) (hle k hk2)
      · intro _; rfl

theorem findLastAsc_max {l : List ℚ} {w m : ℚ}
    (hs : l.Sorted (fun a b => a ≤ b)) (h : findLastAsc l w = some m) :
    m ∈ l ∧ m ≤ w ∧ ∀ k ∈ l, k ≤ w → k ≤ m := by
  induction l with
  | nil => simp [findLastAsc] at h
  | cons b rest ih =>
    rw [List.sorted_cons] at hs
    obtain ⟨hle, hrest⟩ := hs
    simp only [findLastAsc] at h
    by_cases hb : b ≤ w
    · rw [if_pos hb] at h
      cases hrec : findLastAsc rest w with
      | some m2 =>
        rw [hrec] at h
        obtain rfl : m2 = m := by injection h
        obtain ⟨hmem, hle2, hmax⟩ := ih hrest hrec
        refine ⟨List.mem_cons_of_mem b hmem, hle2, ?_⟩
        intro k hk hkw
        rcases List.mem_cons.mp hk with rfl | hk2
        · exact hle _ hmem
        · exact hmax k hk2 hkw
      | none =>
        rw [hrec] at h
        obtain rfl : b = m := by injection h
        have hall : ∀ k ∈ rest, w < k := (findLastAsc_eq_none hrest).mp hrec
        refine ⟨List.mem_cons_self b rest, hb, ?_⟩
        intro k hk hkw
        rcases List.mem_cons.mp hk with rfl | hk2
        · exact le_refl k
        · exact absurd (hall k hk2) (not_lt.mpr hkw)
    · rw [if_neg hb] at h
      exact absurd h (by simp)

theorem sortDesc_sorted (l : List ℚ) : (sortDesc l).Sorted (fun a b => a ≥ b) :=
  List.sorted_insertionSort _ l

theorem sortAsc_sorted (l : List ℚ) : (sortAsc l).Sorted (fun a b => a ≤ b) :=
  List.sorted_insertionSort _ l

theorem mem_sortDesc {l : List ℚ} {k : ℚ} : k ∈ sortDesc l ↔ k ∈ l :=
  (List.perm_insertionSort _ l).mem_iff

theorem mem_sortAsc {l : List ℚ} {k : ℚ} : k ∈ sortAsc l ↔ k ∈ l :=
  (List.perm_insertionSort _ l).mem_iff

theorem lookupBp_eq {resp : List (ℚ × BPOverride)} {k : ℚ} {o : BPOverride}
    (hnodup : (bpKeys resp).Nodup) (hmem : (k, o) ∈ resp) :
    lookupBp resp k = some o := by
  induction resp with
  | nil => cases hmem
  | cons p rest ih =>
    obtain ⟨k2, o2⟩ := p
    rw [bpKeys, List.map_cons, List.nodup_cons] at hnodup
    obtain ⟨hk2, hrest⟩ := hnodup
    simp only [lookupBp]
    rcases List.mem_cons.mp hmem with heq | hmem2
    · obtain ⟨rfl, rfl⟩ := Prod.mk.injEq .. ▸ heq
      rw [if_pos rfl]
    · by_cases hkk : k2 = k
      · subst hkk
        exact absurd (List.mem_map_of_mem Prod.fst hmem2) hk2
      · rw [if_neg hkk]
        exact ih hrest hmem2

/-- The two selection loops agree on every key list: each returns the largest
key at or below the width, if any. -/
theorem select_eq (l : List ℚ) (w : ℚ) :
    findFirstDesc (sortDesc l) w = findLastAsc (sortAsc l) w := by
  cases hfd : findFirstDesc (sortDesc l) w with
  | none =>
    have hall : ∀ k ∈ l, w < k := fun k hk =>
      findFirstDesc_eq_none.mp hfd k (mem_sortDesc.mpr hk)
    exact ((findLastAsc_eq_none (sortAsc_sorted l)).mpr
      (fun k hk => hall k (mem_sortAsc.mp hk))).symm
  | some m =>
    obtain ⟨hmem, hle, hmax⟩ := findFirstDesc_max (sortDesc_sorted l) hfd
    cases hfl : findLastAsc (sortAsc l) w with
    | none =>
      have := (findLastAsc_eq_none (sortAsc_sorted l)).mp hfl m
        (mem_sortAsc.mpr (mem_sortDesc.mp hmem))
      exact absurd hle (not_le.mpr this)
    | some m2 =>
      obtain ⟨hmem2, hle2, hmax2⟩ := findLastAsc_max (sortAsc_sorted l) hfl
      have h1 : m ≤ m2 := hmax2 m (mem_sortAsc.mpr (mem_sortDesc.mp hmem)) hle
      have h2 : m2 ≤ m := hmax m2 (mem_sortDesc.mpr (mem_sortAsc.mp hmem2)) hle2
      exact congrArg some (le_antisymm h1 h2)

/-- `getItemsToShow` at a state whose best matching breakpoint is `k` with
override `o` reads the override with the truthiness fallback. -/
theorem getItemsToShow_best {s : State} {resp : List (ℚ × BPOverride)} {k : ℚ}
    {o : BPOverride} (hresp : s.options.responsive = some resp)
    (hnodup : (bpKeys resp).Nodup) (hmem : (k, o) ∈ resp)
    (hk : k ≤ s.containerWidth)
    (hmax : ∀ k2 ∈ bpKeys resp, k2 ≤ s.containerWidth → k2 ≤ k) :
    getItemsToShow s = truthyOr o.itemsToShow s.options.itemsToShow := by
  have hkmem : k ∈ bpKeys resp := List.mem_map_of_mem Prod.fst hmem
  cases hfd : findFirstDesc (sortDesc (bpKeys resp)) s.containerWidth with
  | none =>
    exact absurd hk (not_le.mpr (findFirstDesc_eq_none.mp hfd k (mem_sortDesc.mpr hkmem)))
  | some m =>
    obtain ⟨hmmem, hmle, hmmax⟩ := findFirstDesc_max (sortDesc_sorted _) hfd
    have hkm : k = m :=
      le_antisymm (hmmax k (mem_sortDesc.mpr hkmem) hk)
        (hmax m (mem_sortDesc.mp hmmem) hmle)
    subst hkm
    simp only [getItemsToShow, hresp, hfd, lookupBp_eq hnodup hmem]

/-- `getItemsToScroll` at a state whose best matching breakpoint is `k` with
override `o` reads the override with the defined-or fallback. -/
theorem getItemsToScroll_best {s : State} {resp : List (ℚ × BPOverride)} {k : ℚ}
    {o : BPOverride} (hresp : s.options.responsive = some resp)
    (hnodup : (bpKeys resp).Nodup) (hmem : (k, o) ∈ resp)
    (hk : k ≤ s.containerWidth)
    (hmax : ∀ k2 ∈ bpKeys resp, k2 ≤ s.containerWidth → k2 ≤ k) :
    getItemsToScroll s = definedOr o.itemsToScroll s.options.itemsToScroll := by
  have hkmem : k ∈ bpKeys resp := List.mem_map_of_mem Prod.fst hmem
  cases hfl : findLastAsc (sortAsc (bpKeys resp)) s.containerWidth with
  | none =>
    have := (findLastAsc_eq_none (sortAsc_sorted _)).mp hfl k (mem_sortAsc.mpr hkmem)
    exact absurd hk (not_le.mpr this)
  | some m =>
    obtain ⟨hmmem, hmle, hmmax⟩ := findLastAsc_max (sortAsc_sorted _) hfl
    have hkm : k = m :=
      le_antisymm (hmmax k (mem_sortAsc.mpr hkmem) hk)
        (hmax m (mem_sortAsc.mp hmmem) hmle)
    subst hkm
    simp only [getItemsToScroll, hresp, hfl, lookupBp_eq hnodup hmem]

/-- `getItemsToShow` falls back to the base option when no key matches. -/
theorem getItemsToShow_nomatch {s : State} {resp : List (ℚ × BPOverride)}
    (hresp : s.options.responsive = some resp)
    (hnone : ∀ k ∈ bpKeys resp, s.containerWidth < k) :
    getItemsToShow s = s.options.itemsToShow := by
  simp only [getItemsToShow, hresp,
    findFirstDesc_eq_none.mpr (fun k hk => hnone k (mem_sortDesc.mp hk))]

/-- `getItemsToScroll` falls back to the base option when no key matches. -/
theorem getItemsToScroll_nomatch {s : State} {resp : List (ℚ × BPOverride)}
    (hresp : s.options.responsive = some resp)
    (hnone : ∀ k ∈ bpKeys resp, s.containerWidth < k) :
    getItemsToScroll s = s.options.itemsToScroll := by
  simp only [getItemsToScroll, hresp,
    (findLastAsc_eq_none (sortAsc_sorted _)).mpr
      (fun k hk => hnone k (mem_sortAsc.mp hk))]

/-! ### Concrete configurations used by the claims -/

/-- The responsive map of the specification example scenario:
`{0: {itemsToShow 1, itemsToScroll 1}, 767: {itemsToShow 2},
1024: {itemsToShow 3, itemsToScroll 2}}`. -/
def exResponsive : List (ℚ × BPOverride) :=
  [(0, { itemsToShow := some 1, itemsToScroll := some 1 }),
   (767, { itemsToShow := some 2 }),
   (1024, { itemsToShow := some 3, itemsToScroll := some 2 })]

/-- The specification example state: base `{itemsToShow 3, itemsToScroll 2}`,
gap 20, container width 800. -/
def exState : State :=
  { options := { itemsToShow := 3, itemsToScroll := 2, gap := 20,
                 responsive := some exResponsive },
    containerWidth := 800 }

/-- A single-breakpoint map whose override sets both fields to an explicit 0. -/
def zeroOverrideMap : List (ℚ × BPOverride) :=
  [(100, { itemsToShow := some 0, itemsToScroll := some 0 })]

/-- State for the claim C9 counterexample: distinct keys, matching breakpoint
100, both override fields 0, equal base values. -/
def c9State : State :=
  { options := { itemsToShow := 2, itemsToScroll := 2, gap := 20,
                 responsive := some zeroOverrideMap },
    containerWidth := 200 }

/-- A single-breakpoint map for claim C10, with both fields explicitly 0. -/
def c10Map : List (ℚ × BPOverride) :=
  [(500, { itemsToShow := some 0, itemsToScroll := some 0 })]

/-- State for claim C10: base `{itemsToShow 3, itemsToScroll 2}`, the 0-0
override at key 500 matching at width 800. -/
def c10State : State :=
  { options := { itemsToShow := 3, itemsToScroll := 2, gap := 20,
                 responsive := some c10Map },
    containerWidth := 800 }

/-! ### Claims C1, C9, C10: breakpoint resolution -/

/-- Claim C1: for a responsive map with distinct numeric keys (and positive
override values, per the data-model invariant), breakpoint resolution selects
exactly the single largest key at or below the container width and merges only
that breakpoint's partial override onto the base values: a field absent from
the winning override falls back to the base configuration, and when no key is
at or below the width both resolvers return the base values unchanged.  On the
spec example map with base `{itemsToShow 3, itemsToScroll 2}` at width 800 the
result is `{itemsToShow 2, itemsToScroll 2}`. -/
theorem C1_breakpoint_resolution (s : State) (resp : List (ℚ × BPOverride))
    (hresp : s.options.responsive = some resp)
    (hnodup : (bpKeys resp).Nodup)
    (hpos : ∀ p ∈ resp, (p : ℚ × BPOverride).2.itemsToShow ≠ some 0) :
    ((∀ k ∈ bpKeys resp, s.containerWidth < k) →
      getItemsToShow s = s.options.itemsToShow ∧
        getItemsToScroll s = s.options.itemsToScroll) ∧
    (∀ k o, (k, o) ∈ resp → k ≤ s.containerWidth →
      (∀ k2 ∈ bpKeys resp, k2 ≤ s.containerWidth → k2 ≤ k) →
      getItemsToShow s = definedOr o.itemsToShow s.options.itemsToShow ∧
        getItemsToScroll s = definedOr o.itemsToScroll s.options.itemsToScroll) ∧
    (getItemsToShow exState = 2 ∧ getItemsToScroll exState = 2) := by
  refine ⟨?_, ?_, by decide, by decide⟩
  · intro hnone
    exact ⟨getItemsToShow_nomatch hresp hnone, getItemsToScroll_nomatch hresp hnone⟩
  · intro k o hmem hk hmax
    have hshow := getItemsToShow_best hresp hnodup hmem hk hmax
    have htruthy : truthyOr o.itemsToShow s.options.itemsToShow
        = definedOr o.itemsToShow s.options.itemsToShow := by
      cases ho : o.itemsToShow with
      | none => rfl
      | some v =>
        have hv : v ≠ 0 := fun h0 => hpos (k, o) hmem (ho.trans (by rw [h0]))
        simp [truthyOr, definedOr, hv]
    exact ⟨hshow.trans htruthy, getItemsToScroll_best hresp hnodup hmem hk hmax⟩

theorem C1_witness :
    getItemsToShow exState = 2 ∧ getItemsToScroll exState = 2 :=
  (C1_breakpoint_resolution exState exResponsive rfl (by decide) (by decide)).2.2

/-- Claim C9 (amended): the descending-sort first-match loop of
`getItemsToShow` and the ascending-sort last-match-before-exceeding loop of
`getItemsToScroll` select the same active breakpoint for every map with
distinct keys; they produce the same resolved value whenever the base values
agree and the overrides are field-wise identical and never an explicit 0.
(The unamended claim fails: the two loops read the selected override
differently, a truthiness test versus a defined-test, so an explicit 0
override makes the resolved values differ; see the counterexample.) -/
theorem C9_resolver_equivalence (s : State) (resp : List (ℚ × BPOverride))
    (hresp : s.options.responsive = some resp)
    (hnodup : (bpKeys resp).Nodup) :
    findFirstDesc (sortDesc (bpKeys resp)) s.containerWidth
      = findLastAsc (sortAsc (bpKeys resp)) s.containerWidth ∧
    (s.options.itemsToShow = s.options.itemsToScroll →
      (∀ p ∈ resp, (p : ℚ × BPOverride).2.itemsToShow = p.2.itemsToScroll) →
      (∀ p ∈ resp, (p : ℚ × BPOverride).2.itemsToShow ≠ some 0) →
      getItemsToShow s = getItemsToScroll s) := by
  refine ⟨select_eq _ _, ?_⟩
  intro hbase hsame hnz
  cases hfd : findFirstDesc (sortDesc (bpKeys resp)) s.containerWidth with
  | none =>
    have hall : ∀ k ∈ bpKeys resp, s.containerWidth < k := fun k hk =>
      findFirstDesc_eq_none.mp hfd k (mem_sortDesc.mpr hk)
    rw [getItemsToShow_nomatch hresp hall, getItemsToScroll_nomatch hresp hall, hbase]
  | some m =>
    obtain ⟨hmmem, hmle, hmmax⟩ := findFirstDesc_max (sortDesc_sorted _) hfd
    obtain ⟨⟨k0, o⟩, hpo, hfst⟩ := List.mem_map.mp (mem_sortDesc.mp hmmem)
    have hk0 : k0 = m := hfst
    subst hk0
    have hmax2 : ∀ k2 ∈ bpKeys resp, k2 ≤ s.containerWidth → k2 ≤ k0 :=
      fun k2 hk2 hle2 => hmmax k2 (mem_sortDesc.mpr hk2) hle2
    rw [getItemsToShow_best hresp hnodup hpo hmle hmax2,
      getItemsToScroll_best hresp hnodup hpo hmle hmax2, hbase, ← hsame _ hpo]
    cases ho : o.itemsToShow with
    | none => rfl
    | some v =>
      have hv : v ≠ 0 := fun h0 => (hnz _ hpo) (ho.trans (by rw [h0]))
      simp [truthyOr, definedOr, ho, hv]

theorem C9_witness :
    findFirstDesc (sortDesc (bpKeys zeroOverrideMap)) c9State.containerWidth
      = findLastAsc (sortAsc (bpKeys zeroOverrideMap)) c9State.containerWidth :=
  (C9_resolver_equivalence c9State zeroOverrideMap rfl (by decide)).1

/-- Claim C9 counterexample: on a distinct-key map whose single matching
override sets both fields to an explicit 0 and whose base values agree, the
two loops select the same breakpoint yet resolve different values (2 versus
0), so they are not behaviorally equivalent as stated. -/
theorem C9_counterexample :
    (bpKeys zeroOverrideMap).Nodup ∧
    getItemsToShow c9State = 2 ∧ getItemsToScroll c9State = 0 ∧
    getItemsToShow c9State ≠ getItemsToScroll c9State := by decide

/-- Claim C10: an explicit 0 in the winning override is treated
asymmetrically: `getItemsToShow` discards it (truthiness test) and returns the
base value, while `getItemsToScroll` honors it (defined-test) and returns 0;
on the concrete configuration `c10State` the resolved pair is
`itemsToShow = 3` (base) and `itemsToScroll = 0` (override). -/
theorem C10_zero_override_asymmetry (s : State) (resp : List (ℚ × BPOverride))
    (k : ℚ) (o : BPOverride)
    (hresp : s.options.responsive = some resp) (hnodup : (bpKeys resp).Nodup)
    (hmem : (k, o) ∈ resp) (hk : k ≤ s.containerWidth)
    (hmax : ∀ k2 ∈ bpKeys resp, k2 ≤ s.containerWidth → k2 ≤ k) :
    (o.itemsToShow = some 0 → getItemsToShow s = s.options.itemsToShow) ∧
    (o.itemsToScroll = some 0 → getItemsToScroll s = 0) ∧
    (getItemsToShow c10State = 3 ∧ getItemsToScroll c10State = 0) := by
  refine ⟨?_, ?_, by decide, by decide⟩
  · intro h0
    rw [getItemsToShow_best hresp hnodup hmem hk hmax, h0]
    simp [truthyOr]
  · intro h0
    rw [getItemsToScroll_best hresp hnodup hmem hk hmax, h0]
    rfl

theorem C10_witness :
    getItemsToShow c10State = 3 ∧ getItemsToScroll c10State = 0 :=
  (C10_zero_override_asymmetry c10State c10Map 500
    { itemsToShow := some 0, itemsToScroll := some 0 }
    rfl (by decide) (by decide) (by decide) (by decide)).2.2

/-! ### Claims C6, C4: item width and validation -/

/-- State for claim C6's concrete scenario: no responsive map, 4 items shown,
gap 20, container width 1000. -/
def c6State : State :=
  { options := { itemsToShow := 4, itemsToScroll := 1, gap := 20 },
    containerWidth := 1000 }

/-- Claim C6: the per-item width is `(containerWidth / itemsToShow) - gap`:
for every container width, base items-to-show count and gap (no responsive
overrides the count), and in particular `itemWidth(1000, 4, 20) = 230`. -/
theorem C6_item_width (w n x g sl : ℚ) :
    getItemWidth { options := { itemsToShow := n, itemsToScroll := x, gap := g },
                   containerWidth := w, containerScrollLeft := sl } = w / n - g ∧
    getItemWidth c6State = 230 := by
  constructor
  · rfl
  · norm_num [getItemWidth, getItemsToShow, c6State]

/-- State for the claim C4 counterexample: container width 0 with one item to
show — invalid per the spec, silently accepted by the code. -/
def c4State : State :=
  { options := { itemsToShow := 1, itemsToScroll := 1, gap := 20 },
    containerWidth := 0 }

/-- A valid-input state used to witness claim C4's agreement statement. -/
def c4ValidState : State :=
  { options := { itemsToShow := 4, itemsToScroll := 1, gap := 20 },
    containerWidth := 1000 }

/-- Claim C4 (amended): the code performs no validation: no
InvalidConfiguration error exists anywhere in it; `getItemWidth` is a total
function that agrees with the spec's checked `itemWidth` exactly on valid
inputs (`itemsToShow ≥ 1` and `containerWidth > 0`), and on invalid inputs it
silently returns the unchecked number instead of raising (see the
counterexample). -/
theorem C4_no_validation (s : State) (hresp : s.options.responsive = none)
    (h1 : 1 ≤ s.options.itemsToShow) (h2 : 0 < s.containerWidth) :
    specItemWidthChecked s.containerWidth s.options.itemsToShow s.options.gap
      = Except.ok (getItemWidth s) := by
  have hshow : getItemsToShow s = s.options.itemsToShow := by
    unfold getItemsToShow
    rw [hresp]
  simp only [specItemWidthChecked,
    if_neg (not_or.mpr ⟨not_lt.mpr h1, not_le.mpr h2⟩), getItemWidth, hshow]

theorem C4_witness :
    specItemWidthChecked c4ValidState.containerWidth
      c4ValidState.options.itemsToShow c4ValidState.options.gap
      = Except.ok (getItemWidth c4ValidState) :=
  C4_no_validation c4ValidState rfl (by decide) (by decide)

/-- Claim C4 counterexample: at container width 0 (invalid per the spec) the
spec's checked itemWidth fails with InvalidConfiguration, but the code's
`getItemWidth` silently returns −20: nothing is raised at the point of use. -/
theorem C4_counterexample :
    specItemWidthChecked 0 1 20 = Except.error ConfigError.InvalidConfiguration ∧
    getItemWidth c4State = -20 := by
  constructor
  · rfl
  · norm_num [getItemWidth, getItemsToShow, c4State]

/-! ### Claim C7: prev and next -/

/-- Claim C7: `prev()` and `next()` compute
`scrollAmount = (itemWidth + gap) * effectiveItemsToScroll`, with the
breakpoint-resolved items-to-scroll, and request a relative offset change of
`-scrollAmount` respectively `+scrollAmount`; on the spec example
configuration at width 800 (resolved items-to-show 2, item width 380,
resolved items-to-scroll 2) the requests are −800 and +800. -/
theorem C7_prev_next_requests (s : State) :
    prevRequest s = -((getItemWidth s + s.options.gap) * getItemsToScroll s) ∧
    nextRequest s = (getItemWidth s + s.options.gap) * getItemsToScroll s ∧
    prevRequest s = -(nextRequest s) ∧
    nextRequest exState = 800 ∧ prevRequest exState = -800 := by
  have h1 : getItemsToShow exState = 2 := by decide
  have h2 : getItemsToScroll exState = 2 := by decide
  have hw : exState.containerWidth = 800 := rfl
  have hg : exState.options.gap = 20 := rfl
  refine ⟨rfl, rfl, rfl, ?_, ?_⟩
  · norm_num [nextRequest, getItemWidth, h1, h2, hw, hg]
  · norm_num [prevRequest, getItemWidth, h1, h2, hw, hg]

/-! ### Claim C8: pointer-down during a drag -/

/-- State for claim C8: a drag session already in progress, with recorded
start position 10 and recorded start offset 100, while the container sits at
offset 300. -/
def c8State : State :=
  { options := {}, containerWidth := 1000, containerScrollLeft := 300,
    isDragging := true, startX := 10, scrollLeft := 100 }

/-- Claim C8 (amended): `startDrag` does not guard on `isDragging`: a
pointer-down that arrives while the state is already Dragging re-initializes
the drag session, overwriting `startX` with the new pointer position and the
recorded start offset `scrollLeft` with the current container offset — a
reset, not a no-op. -/
theorem C8_pointer_down_resets (s : State) (x : ℚ) (h : s.isDragging = true) :
    (startDrag s x).isDragging = true ∧ (startDrag s x).startX = x ∧
    (startDrag s x).scrollLeft = s.containerScrollLeft :=
  ⟨rfl, rfl, rfl⟩

theorem C8_witness :
    (startDrag c8State 55).isDragging = true ∧ (startDrag c8State 55).startX = 55 ∧
    (startDrag c8State 55).scrollLeft = c8State.containerScrollLeft :=
  C8_pointer_down_resets c8State 55 rfl

/-- Claim C8 counterexample: with a drag already active (recorded start
position 10, recorded start offset 100, container at 300), a pointer-down at
position 55 changes the recorded drag-start position to 55 and the recorded
start offset to 300 — not a no-op. -/
theorem C8_counterexample :
    c8State.isDragging = true ∧
    (startDrag c8State 55).startX ≠ c8State.startX ∧
    (startDrag c8State 55).scrollLeft ≠ c8State.scrollLeft := by decide

/-! ### Claims C3, C5: snap-on-release and the offset round trip -/

/-- State for claim C3: two items shown and scrolled, gap 20, container width
500 (item width 230, page stride 500), raw offset 500 — exactly page 1. -/
def c3State : State :=
  { options := { itemsToShow := 2, itemsToScroll := 2, gap := 20 },
    containerWidth := 500, containerScrollLeft := 500 }

/-- Claim C3: divergence at the failing input. The code's snap-on-release
computes `round(scrollOffset / (itemWidth + gap))` — it never multiplies the
stride by `itemsToScroll` — and feeds that index to `scrollTo`, which scales
by `itemsToShow`.  At raw offset 500 (exactly page 1) the claim's
`pageForOffset` gives page 1, while the code computes index 2 and `endDrag`
scrolls the container to offset 1000. -/
theorem C3_snap_divergence :
    snapTargetIndex c3State = 2 ∧
    specPageForOffset c3State.containerScrollLeft (getItemWidth c3State)
      c3State.options.gap c3State.options.itemsToScroll = 1 ∧
    (endDrag c3State).containerScrollLeft = 1000 ∧
    (endDrag c3State).isDragging = false := by
  refine ⟨?_, ?_, ?_, rfl⟩
  · norm_num [snapTargetIndex, getItemWidth, getItemsToShow, c3State, round_eq]
  · norm_num [specPageForOffset, getItemWidth, getItemsToShow, c3State, round_eq]
  · norm_num [endDrag, snapToNearest, scrollTo, scrollToTarget, snapTargetIndex,
      getItemWidth, getItemsToShow, c3State, round_eq]

/-- State for claim C5's code side: two items shown, gap 20, container width
500 (item width 230, page stride 500), offset still 0 before `scrollTo`. -/
def c5State : State :=
  { options := { itemsToShow := 2, itemsToScroll := 2, gap := 20 },
    containerWidth := 500 }

/-- Claim C5: the spec-level round trip does hold — for every page index `p`
and positive stride, `pageForOffset(offsetForPage(p, iw, g, n), iw, g, n) = p`
— but the code does not realize it: after `scrollTo(1)` places the offset at
`(itemWidth + gap) * itemsToShow * 1 = 500`, the code's snap-target
computation returns `itemsToShow * 1 = 2`, not 1. -/
theorem C5_roundtrip (p : ℤ) (iw g n : ℚ) (h : 0 < (iw + g) * n) :
    specPageForOffset (specOffsetForPage p iw g n) iw g n = p ∧
    snapTargetIndex (scrollTo c5State 1) = 2 := by
  constructor
  · unfold specPageForOffset specOffsetForPage
    have hne : (iw + g) * n ≠ 0 := ne_of_gt h
    rw [show (p : ℚ) * n * (iw + g) = (p : ℚ) * ((iw + g) * n) by ring,
      mul_div_assoc, div_self hne, mul_one, round_intCast]
  · norm_num [snapTargetIndex, scrollTo, scrollToTarget, getItemWidth,
      getItemsToShow, c5State, round_eq]

theorem C5_witness :
    specPageForOffset (specOffsetForPage 2 230 20 2) 230 20 2 = 2 :=
  (C5_roundtrip 2 230 20 2 (by norm_num)).1

/-! ### Claim C2: resize reconciliation -/

/-- State for claim C2: base show 4 and gap 20 at container width 1000, so
the old per-item width is 230 and the old page stride 1000; the raw offset
2000 is logical page 2.  The responsive map switches to two items shown (new
per-item width 480), and `currentBreakpoint` is still unset, as on the first
`handleResize` call after setup. -/
def c2State : State :=
  { options := { itemsToShow := 4, itemsToScroll := 1, gap := 20,
                 responsive := some [(0, { itemsToShow := some 2 })] },
    containerWidth := 1000, containerScrollLeft := 2000 }

/-- Claim C2: divergence at the failing input. The code computes the page
index of the old offset against the NEW per-item width — `getItemWidth` is
read after `update()` has switched to the new breakpoint — not the old one:
at `c2State` it computes `round(2000 / (500 * 4)) = 1` and lands at offset
1000, whereas reconciling with the old item width, as the claim states,
computes page `round(2000 / (250 * 4)) = 2` and gives offset 2000. -/
theorem C2_resize_divergence :
    (handleResize c2State).containerScrollLeft = 1000 ∧
    specReconcile 2000 230 20 4 480 20 2 = 2000 ∧
    (handleResize c2State).containerScrollLeft ≠
      specReconcile 2000 230 20 4 480 20 2 := by
  have h1 : (handleResize c2State).containerScrollLeft = 1000 := by
    norm_num [handleResize, getItemsToShow, getItemsToScroll, getItemWidth,
      c2State, bpKeys, sortDesc, sortAsc, List.insertionSort, List.orderedInsert,
      findFirstDesc, findLastAsc, lookupBp, truthyOr, definedOr, round_eq]
  have h2 : specReconcile 2000 230 20 4 480 20 2 = 2000 := by
    norm_num [specReconcile, round_eq]
  refine ⟨h1, h2, ?_⟩
  rw [h1, h2]
  norm_num

end SnapScroll
